import Mathlib

/-!
Shallow embedding of the TFTP client `mytftp.py`.

The client is a single script: a packet codec (`send_rrq`, `send_wrq`,
`send_ack`, `send_data` build wire bytes with `struct.pack` and hand them to
`sendto`), a download path (`get`: RRQ handshake with up to `MAX_TRY`
attempts, then a DATA-receive/ACK loop), and an upload path (`put`: WRQ
handshake, then a DATA-send/ACK-wait loop with a per-block retry loop).

Modelling choices:
* A byte is a `Nat` (values < 256 on a real wire); a datagram is a `List Nat`.
* Network input is a `Script`: one entry per `recvfrom` call, `none` for a
  socket timeout, `some (d, a)` for datagram `d` arriving from address `a`.
  `recvfrom(516)` truncation is modelled by `List.take 516` at each receive.
* The state machine records every packet it hands to the transport as a
  `SentPacket` (with its destination address).  The wire encoding of ACK and
  DATA packets is `ack_message` / `data_message`, which mirror
  `struct.pack('>hh', …)` including its `struct.error` behaviour (the `'h'`
  format is signed 16-bit, so values ≥ 32768 raise; modelled as `none`).
  `send_ack` and `send_data` run the encoder before `sendto`, so the loops
  consult it: on the `none` path the exception is uncaught and the process
  dies with a traceback (outcome `crashed`, exit code 1, no close executed).
* `sys.exit(1)` is exit code 1; falling off the end of the script is exit
  code 0.  Whether `file.close()`, `os.remove(filename)` and `sock.close()`
  were executed before the process ended is recorded in the result record.
* A run whose script is exhausted while the program would still block in
  `recvfrom` ends in the artificial outcome `stuck`; theorems always supply
  scripts long enough that `stuck` does not arise.
-/

namespace Mytftp

/-- Bytes of a datagram or file, one `Nat` per byte. -/
abbrev Datagram := List Nat

/-- A UDP peer address, `(host, port)`. -/
abbrev Addr := Nat × Nat

/-- One entry per `recvfrom` call: `none` is a socket timeout, `some (d, a)` a
datagram `d` from source address `a`. -/
abbrev Script := List (Option (Datagram × Addr))

/-- Constant `DEFAULT_PORT = 69` (mytftp.py line 9). -/
def DEFAULT_PORT : Nat := 69

/-- Constant `BLOCK_SIZE = 512` (line 10). -/
def BLOCK_SIZE : Nat := 512

/-- Constant `TIME_OUT = 5` (line 12): the per-receive socket timeout in
seconds, installed once by `sock.settimeout(TIME_OUT)` (line 82). -/
def TIME_OUT : Nat := 5

/-- Constant `MAX_TRY = 3` (line 13): attempts per send-and-wait. -/
def MAX_TRY : Nat := 3

/-- The opcode dictionary `OPCODE` (line 15).  Keys not in the dictionary are
never looked up by the script; they map to 0 here. -/
def OPCODE : String → Nat
  | "RRQ" => 1
  | "WRQ" => 2
  | "DATA" => 3
  | "ACK" => 4
  | "ERROR" => 5
  | _ => 0

/-- Python `int.from_bytes(bs, 'big')`: big-endian unsigned interpretation.
On an empty slice it returns 0, exactly as in Python. -/
def int_from_bytes (bs : List Nat) : Nat :=
  bs.foldl (fun acc b => acc * 256 + b) 0

/-- Python `struct.pack('>h', n)` for a nonnegative int `n`: `'h'` is the
SIGNED big-endian 16-bit format, so CPython raises `struct.error` for
`n > 32767` ("short format requires -32768 <= number <= 32767"); the raise is
modelled as `none`. -/
def pack_int16 (n : Nat) : Option (List Nat) :=
  if n ≤ 32767 then some [n / 256, n % 256] else none

/-- The wire bytes `ack_message` built by `send_ack` (line 46):
`pack('>hh', OPCODE['ACK'], block_num)`.  `none` models the `struct.error`
crash of `pack` on a block number above 32767. -/
def ack_message (block_num : Nat) : Option (List Nat) :=
  (pack_int16 (OPCODE "ACK")).bind fun op =>
    (pack_int16 block_num).map fun blk => op ++ blk

/-- The wire bytes `data_message` built by `send_data` (line 54):
`pack('>hh{len}s', OPCODE['DATA'], block_num, data)`. -/
def data_message (block_num : Nat) (data : List Nat) : Option (List Nat) :=
  (pack_int16 (OPCODE "DATA")).bind fun op =>
    (pack_int16 block_num).map fun blk => op ++ blk ++ data

/-- The block-number field as read by the script: `int.from_bytes(data[2:4],
'big')` (lines 126, 141, 181, 185, 209, 213). -/
def block_field (data : Datagram) : Nat :=
  int_from_bytes ((data.take 4).drop 2)

/-- A packet handed to the transport via `sock.sendto`, recorded together with
its destination address.  The wire encoding of the `ack` and `data` packets is
`ack_message` / `data_message`. -/
inductive SentPacket where
  | rrq (dest : Addr) (filename mode : List Nat)
  | wrq (dest : Addr) (filename mode : List Nat)
  | ack (dest : Addr) (block : Nat)
  | data (dest : Addr) (block : Nat) (payload : List Nat)
deriving DecidableEq, Repr

/-- Terminal condition of a `get` run. -/
inductive GetOutcome where
  /-- Short DATA block received: `break` at line 135 ("Download completed"). -/
  | success
  /-- `socket.timeout` on a mid-transfer receive: `break` at line 154
  ("Timeout waiting for data. Exiting.") — the loop exits without marking
  failure. -/
  | timedOutMidTransfer
  /-- A TFTP ERROR packet was processed (lines 140–147): `sys.exit(1)`. -/
  | protocolError (code : Nat) (msg : List Nat)
  /-- The RRQ handshake exhausted its attempts (lines 114–118):
  "Error: Server not responding.", `sys.exit(1)`. -/
  | serverUnresponsive
  /-- `send_ack` raised an uncaught `struct.error` (`pack('>h', …)` on a
  block number ≥ 32768, lines 46, 130, 138): the interpreter prints a
  traceback and exits with code 1; no explicit close runs. -/
  | crashed
  /-- The driving script ran out while the program would still block in
  `recvfrom`; artificial, never reached by the theorems below. -/
  | stuck
deriving DecidableEq, Repr

/-- Everything observable at the end of a `get` run: the terminal condition,
the bytes written to the destination file, the packets handed to the
transport, whether `file.close()` / `os.remove(filename)` / `sock.close()`
were executed, and the process exit code. -/
structure GetResult where
  outcome : GetOutcome
  written : List Nat
  sent : List SentPacket
  fileClosed : Bool
  fileRemoved : Bool
  sockClosed : Bool
  exitCode : Nat
deriving DecidableEq, Repr

/-- Result of one iteration body of the `get` data-receive loop:
either the loop goes on to the next `recvfrom`, carrying the updated
`expected_block`, file contents and send trace, or the program halts. -/
inductive GetStepOut where
  | cont (expected_block : Nat) (written : List Nat) (sent : List SentPacket)
  | halt (r : GetResult)
deriving DecidableEq, Repr

/-- One iteration body of the `get` data-receive loop (lines 122–147), from
`opcode = int.from_bytes(data[:2], 'big')` down to just before the trailing
`recvfrom`.  `server_address` is the peer captured at handshake time — every
ACK goes there.  DATA for the expected block: write payload, then
`send_ack(block)` — which first runs `pack('>hh', 4, block)` (`ack_message`)
and raises `struct.error` for a block ≥ 32768, killing the process with a
traceback (the write has already happened) — then advance, and `break` with
success if the payload is short (< `BLOCK_SIZE`).  DATA for any other block:
`send_ack` for the received block number (same crash for ≥ 32768) and
continue unchanged.  ERROR: decode code and message (`data[4:-1]`), close and
remove the file, `sys.exit(1)` — the socket is never closed on this path.
Any other opcode falls through with no action. -/
def getStep (server_address : Addr) (expected_block : Nat) (written : List Nat)
    (sent : List SentPacket) (data : Datagram) : GetStepOut :=
  let opcode := int_from_bytes (data.take 2)
  if opcode = OPCODE "DATA" then
    let block_number := block_field data
    if block_number = expected_block then
      let file_data := data.drop 4
      let written := written ++ file_data
      match ack_message block_number with
      | none =>
        .halt { outcome := .crashed, written := written, sent := sent,
                fileClosed := false, fileRemoved := false, sockClosed := false,
                exitCode := 1 }
      | some _ =>
        let sent := sent ++ [SentPacket.ack server_address block_number]
        let expected_block := expected_block + 1
        if file_data.length < BLOCK_SIZE then
          .halt { outcome := .success, written := written, sent := sent,
                  fileClosed := true, fileRemoved := false, sockClosed := true,
                  exitCode := 0 }
        else
          .cont expected_block written sent
    else
      match ack_message block_number with
      | none =>
        .halt { outcome := .crashed, written := written, sent := sent,
                fileClosed := false, fileRemoved := false, sockClosed := false,
                exitCode := 1 }
      | some _ =>
        .cont expected_block written
          (sent ++ [SentPacket.ack server_address block_number])
  else if opcode = OPCODE "ERROR" then
    let error_code := block_field data
    let err_msg := (data.take (data.length - 1)).drop 4
    .halt { outcome := .protocolError error_code err_msg, written := written,
            sent := sent, fileClosed := true, fileRemoved := true,
            sockClosed := false, exitCode := 1 }
  else
    .cont expected_block written sent

/-- The receive half of the `get` data-receive loop: given the result of the
iteration body just run, either stop (the body halted) or perform the next
`data, _ = sock.recvfrom(516)` (line 151) and run the body again.  The source
address of every datagram received here is discarded; a timeout exits the
loop without marking failure, after which `file.close()` (line 156) and
`sock.close()` (line 231) run and the process ends with exit code 0. -/
def getResume (server_address : Addr) : GetStepOut → Script → GetResult
  | .halt r, _ => r
  | .cont _ w s, [] =>
    { outcome := .stuck, written := w, sent := s, fileClosed := false,
      fileRemoved := false, sockClosed := false, exitCode := 0 }
  | .cont _ w s, none :: _ =>
    { outcome := .timedOutMidTransfer, written := w, sent := s,
      fileClosed := true, fileRemoved := false, sockClosed := true,
      exitCode := 0 }
  | .cont e w s, some (d, _) :: rest =>
    getResume server_address (getStep server_address e w s (d.take 516)) rest

/-- The `get` data-receive loop (lines 121–156): run the body on the datagram
in hand, then receive the next one and repeat. -/
def getLoop (server_address : Addr) (expected_block : Nat) (written : List Nat)
    (sent : List SentPacket) (data : Datagram) (script : Script) : GetResult :=
  getResume server_address
    (getStep server_address expected_block written sent data) script

/-- The RRQ handshake (lines 102–118) followed by the data-receive loop.  Up
to `tries` attempts: send RRQ, wait; on timeout retry; on any received
datagram capture its source address as the new `server_address` (line 108) and
enter the loop with `expected_block = 1`.  Exhaustion: `file.close()`,
`os.remove(filename)`, `sys.exit(1)` — the socket is never closed on this
path. -/
def getHandshakeAux (server_address : Addr) (filename mode : List Nat) :
    Nat → List SentPacket → Script → GetResult
  | 0, sent, _ =>
    { outcome := .serverUnresponsive, written := [], sent := sent,
      fileClosed := true, fileRemoved := true, sockClosed := false,
      exitCode := 1 }
  | tries + 1, sent, script =>
    let sent := sent ++ [SentPacket.rrq server_address filename mode]
    match script with
    | [] =>
      { outcome := .stuck, written := [], sent := sent, fileClosed := false,
        fileRemoved := false, sockClosed := false, exitCode := 0 }
    | none :: rest => getHandshakeAux server_address filename mode tries sent rest
    | some (d, newAddr) :: rest => getLoop newAddr 1 [] sent (d.take 516) rest

/-- A whole `get` invocation after the destination file has been opened
(lines 102–156 plus the final `sock.close()`), driven by a receive script. -/
def getRun (server_address : Addr) (filename mode : List Nat)
    (script : Script) : GetResult :=
  getHandshakeAux server_address filename mode MAX_TRY [] script

/-- Terminal condition of a `put` run. -/
inductive PutOutcome where
  /-- Short file block acknowledged: `break` at line 227 ("Upload completed"). -/
  | success
  /-- A block exhausted its retries: "Transfer failed: Max retries exceeded."
  (line 221), `break` — the process still ends with exit code 0. -/
  | transferAborted
  /-- A TFTP ERROR packet was processed: `sys.exit(1)`. -/
  | protocolError (code : Nat)
  /-- The WRQ handshake ended without ACK 0 (lines 191–193): `sys.exit(1)`. -/
  | serverUnresponsive
  /-- `send_data` raised an uncaught `struct.error` (`pack('>hh…s', …)` on a
  block number ≥ 32768, lines 54, 202): traceback, exit code 1, no close. -/
  | crashed
  /-- Script exhausted while the program would still block in `recvfrom`. -/
  | stuck
deriving DecidableEq, Repr

/-- Everything observable at the end of a `put` run. -/
structure PutResult where
  outcome : PutOutcome
  sent : List SentPacket
  fileClosed : Bool
  sockClosed : Bool
  exitCode : Nat
deriving DecidableEq, Repr

/-- Result of the inner retry loop of the `put` data phase (lines 201–218):
an accepted ACK (`acked`), retries exhausted (`noAck`), an ERROR packet
(`errExit`, which runs `file.close()` and `sys.exit(1)` at lines 215–216), or
the artificial `stuck`.  Each constructor carries the send trace so far and
the unconsumed remainder of the script. -/
inductive InnerOut where
  | acked (sent : List SentPacket) (rest : Script)
  | noAck (sent : List SentPacket) (rest : Script)
  | errExit (code : Nat) (sent : List SentPacket) (rest : Script)
  /-- `send_data` raised an uncaught `struct.error` before `sendto`. -/
  | crashed (sent : List SentPacket) (rest : Script)
  | stuck (sent : List SentPacket) (rest : Script)
deriving DecidableEq, Repr

/-- The inner retry loop of the `put` data phase (lines 201–218): up to
`tries` times, send DATA(`block_number`, `file_block`) and wait.  The send
runs `pack('>hh…s', 3, block_number, data)` (`data_message`) first, which
raises `struct.error` for a block number ≥ 32768 — before anything reaches
`sendto` the process dies with a traceback (`crashed`).  A received ACK whose
block field equals `block_number` is accepted; an ACK for any other block,
any unknown opcode, or a timeout consumes the attempt and the next attempt
re-sends the DATA packet; ERROR aborts.  The source address of every
datagram received here is discarded (`data, _ = sock.recvfrom(516)`,
line 205). -/
def putInner (server_address : Addr) (block_number : Nat)
    (file_block : List Nat) : Nat → List SentPacket → Script → InnerOut
  | 0, sent, script => .noAck sent script
  | tries + 1, sent, script =>
    match data_message block_number file_block with
    | none => .crashed sent script
    | some _ =>
      let sent := sent ++ [SentPacket.data server_address block_number file_block]
      match script with
      | [] => .stuck sent []
      | none :: rest => putInner server_address block_number file_block tries sent rest
      | some (d0, _) :: rest =>
        let d := d0.take 516
        let opcode := int_from_bytes (d.take 2)
        if opcode = OPCODE "ACK" then
          if block_field d = block_number then .acked sent rest
          else putInner server_address block_number file_block tries sent rest
        else if opcode = OPCODE "ERROR" then
          .errExit (block_field d) sent rest
        else putInner server_address block_number file_block tries sent rest

/-- The `put` data-send loop (lines 196–229).  Each iteration reads the next
`BLOCK_SIZE` bytes from the source file (`file.read(BLOCK_SIZE)`, modelled by
position `pos` into `fileBytes`), runs the inner retry loop, and then: on
retry exhaustion breaks with `transferAborted` (followed by `file.close()` and
`sock.close()`, exit code 0); on ERROR exits with code 1 after `file.close()`
only; on an accepted ACK increments the block counter and breaks with
`success` exactly when the block just read was shorter than `BLOCK_SIZE`. -/
def putLoop (server_address : Addr) (fileBytes : List Nat)
    (pos block_number : Nat) (sent : List SentPacket) (script : Script) :
    PutResult :=
  match putInner server_address block_number ((fileBytes.drop pos).take BLOCK_SIZE)
      MAX_TRY sent script with
  | .stuck s _ =>
    { outcome := .stuck, sent := s, fileClosed := false, sockClosed := false,
      exitCode := 0 }
  | .errExit code s _ =>
    { outcome := .protocolError code, sent := s, fileClosed := true,
      sockClosed := false, exitCode := 1 }
  | .noAck s _ =>
    { outcome := .transferAborted, sent := s, fileClosed := true,
      sockClosed := true, exitCode := 0 }
  | .crashed s _ =>
    { outcome := .crashed, sent := s, fileClosed := false,
      sockClosed := false, exitCode := 1 }
  | .acked s rest =>
    if ((fileBytes.drop pos).take BLOCK_SIZE).length < BLOCK_SIZE then
      { outcome := .success, sent := s, fileClosed := true, sockClosed := true,
        exitCode := 0 }
    else
      putLoop server_address fileBytes (pos + BLOCK_SIZE) (block_number + 1) s rest
termination_by fileBytes.length - pos
decreasing_by
  simp only [not_lt, List.length_take, List.length_drop, BLOCK_SIZE] at *
  omega

/-- The WRQ handshake (lines 172–193) followed by the data-send loop.  Up to
`tries` attempts: send WRQ to the current `server_address`, wait.  Every
received reply first replaces `server_address` by its source address
(line 178).  A reply that is ACK with block field 0 is accepted and the data
phase starts with `block_number = 1`; an ERROR reply prints and calls
`sys.exit(1)` at once — neither `file.close()` nor `sock.close()` runs on
this path; any other reply (and any timeout) consumes the attempt and the
WRQ is re-sent.  Exhaustion: "Error: Server not responding or Protocol
Error.", `sys.exit(1)` — again with neither close executed. -/
def putHsAux (filename mode fileBytes : List Nat) (server_address : Addr) :
    Nat → List SentPacket → Script → PutResult
  | 0, sent, _ =>
    { outcome := .serverUnresponsive, sent := sent, fileClosed := false,
      sockClosed := false, exitCode := 1 }
  | tries + 1, sent, script =>
    let sent := sent ++ [SentPacket.wrq server_address filename mode]
    match script with
    | [] =>
      { outcome := .stuck, sent := sent, fileClosed := false,
        sockClosed := false, exitCode := 0 }
    | none :: rest => putHsAux filename mode fileBytes server_address tries sent rest
    | some (d0, newAddr) :: rest =>
      let d := d0.take 516
      let opcode := int_from_bytes (d.take 2)
      if opcode = OPCODE "ACK" ∧ block_field d = 0 then
        putLoop newAddr fileBytes 0 1 sent rest
      else if opcode = OPCODE "ERROR" then
        { outcome := .protocolError (block_field d), sent := sent,
          fileClosed := false, sockClosed := false, exitCode := 1 }
      else putHsAux filename mode fileBytes newAddr tries sent rest

/-- A whole `put` invocation after the source file has been opened
(lines 172–229 plus the final `sock.close()`), driven by a receive script. -/
def putRun (server_address : Addr) (filename mode fileBytes : List Nat)
    (script : Script) : PutResult :=
  putHsAux filename mode fileBytes server_address MAX_TRY [] script

/-- A well-formed wire ACK datagram for block `b`, as a TFTP server would
send it: opcode 4 then the 16-bit big-endian block number. -/
def ackDatagram (b : Nat) : Datagram := [0, 4, b / 256, b % 256]

/-- A cooperative server for the `put` data phase: `coopScript a b k` answers
the next `k` receives with correct ACKs for blocks `b, b+1, …`, all from
address `a`, with no timeouts. -/
def coopScript (a : Addr) : Nat → Nat → Script
  | _, 0 => []
  | b, k + 1 => some (ackDatagram b, a) :: coopScript a (b + 1) k

/-- The DATA-packet trace an upload of `fileBytes` is expected to produce:
`dataTrace a fileBytes pos b k` is one DATA packet per block, `k` blocks
starting at block `b` and file position `pos`, each packet carrying the next
`BLOCK_SIZE` bytes of the file. -/
def dataTrace (a : Addr) (fileBytes : List Nat) : Nat → Nat → Nat → List SentPacket
  | _, _, 0 => []
  | pos, b, k + 1 =>
    SentPacket.data a b ((fileBytes.drop pos).take BLOCK_SIZE) ::
      dataTrace a fileBytes (pos + BLOCK_SIZE) (b + 1) k

/-- The datagram bytes of a receive script, with all source addresses
erased. -/
def bytesOf (s : Script) : List (Option Datagram) :=
  s.map (Option.map Prod.fst)

/-- Two inner-retry-loop results agree except possibly in the source
addresses of the unconsumed script remainder. -/
def innerSim : InnerOut → InnerOut → Prop
  | .acked s1 r1, .acked s2 r2 => s1 = s2 ∧ bytesOf r1 = bytesOf r2
  | .noAck s1 r1, .noAck s2 r2 => s1 = s2 ∧ bytesOf r1 = bytesOf r2
  | .errExit c1 s1 r1, .errExit c2 s2 r2 =>
    c1 = c2 ∧ s1 = s2 ∧ bytesOf r1 = bytesOf r2
  | .crashed s1 r1, .crashed s2 r2 => s1 = s2 ∧ bytesOf r1 = bytesOf r2
  | .stuck s1 r1, .stuck s2 r2 => s1 = s2 ∧ bytesOf r1 = bytesOf r2
  | _, _ => False

/-! ### Helper lemmas -/

theorem int_from_bytes_pair (hi lo : Nat) :
    int_from_bytes [hi, lo] = hi * 256 + lo := by
  simp [int_from_bytes]

theorem int_from_bytes_split (b : Nat) :
    int_from_bytes [b / 256, b % 256] = b := by
  rw [int_from_bytes_pair]
  omega

theorem block_field_header (op0 op1 b : Nat) (payload : List Nat) :
    block_field ([op0, op1, b / 256, b % 256] ++ payload) = b := by
  simp [block_field, int_from_bytes_split]

theorem ack_message_some (b : Nat) (hb : b ≤ 32767) :
    ack_message b = some [0, 4, b / 256, b % 256] := by
  simp [ack_message, pack_int16, OPCODE, hb]

theorem ack_message_none (b : Nat) (hb : 32767 < b) :
    ack_message b = none := by
  have hb' : ¬b ≤ 32767 := by omega
  simp [ack_message, pack_int16, OPCODE, hb']

theorem data_message_some (b : Nat) (payload : List Nat) (hb : b ≤ 32767) :
    data_message b payload = some ([0, 3, b / 256, b % 256] ++ payload) := by
  simp [data_message, pack_int16, OPCODE, hb]

theorem data_message_none (b : Nat) (payload : List Nat) (hb : 32767 < b) :
    data_message b payload = none := by
  have hb' : ¬b ≤ 32767 := by omega
  simp [data_message, pack_int16, OPCODE, hb']

/-- What one `get`-loop body does on a wire-shaped DATA datagram for block
`b`: for an encodable block (`b ≤ 32767`), matching block with short payload
halts with success, matching block with full payload continues with the
counter advanced, any other block re-ACKs the received block number and
continues unchanged; for `b ≥ 32768`, `send_ack` raises `struct.error` and
the process crashes — after the write if the block matched, with nothing
sent either way. -/
theorem getStep_data (A : Addr) (E : Nat) (W : List Nat) (S : List SentPacket)
    (b : Nat) (payload : List Nat) :
    getStep A E W S ([0, 3, b / 256, b % 256] ++ payload) =
      if b = E then
        if b ≤ 32767 then
          if payload.length < BLOCK_SIZE then
            .halt { outcome := .success, written := W ++ payload,
                    sent := S ++ [SentPacket.ack A b], fileClosed := true,
                    fileRemoved := false, sockClosed := true, exitCode := 0 }
          else .cont (E + 1) (W ++ payload) (S ++ [SentPacket.ack A b])
        else
          .halt { outcome := .crashed, written := W ++ payload, sent := S,
                  fileClosed := false, fileRemoved := false,
                  sockClosed := false, exitCode := 1 }
      else
        if b ≤ 32767 then .cont E W (S ++ [SentPacket.ack A b])
        else
          .halt { outcome := .crashed, written := W, sent := S,
                  fileClosed := false, fileRemoved := false,
                  sockClosed := false, exitCode := 1 } := by
  have hop : int_from_bytes (([0, 3, b / 256, b % 256] ++ payload).take 2) = 3 := by
    simp [int_from_bytes]
  have hdrop : ([0, 3, b / 256, b % 256] ++ payload).drop 4 = payload := rfl
  by_cases hb : b ≤ 32767
  · simp only [getStep, hop, block_field_header, hdrop, OPCODE,
      ack_message_some b hb, hb]
    norm_num
  · have hb' : 32767 < b := by omega
    simp only [getStep, hop, block_field_header, hdrop, OPCODE,
      ack_message_none b hb', hb]
    norm_num

theorem block_field_quad (op0 op1 b : Nat) :
    block_field [op0, op1, b / 256, b % 256] = b := by
  have h := block_field_header op0 op1 b []
  simpa using h

/-- A correct ACK reply for an encodable block is accepted at once by the
inner retry loop: the DATA packet goes out once and the loop returns
`acked`. -/
theorem putInner_coop (A A' : Addr) (b : Nat) (fb : List Nat)
    (sent : List SentPacket) (t : Nat) (rest : Script) (hb : b ≤ 32767) :
    putInner A b fb (t + 1) sent (some (ackDatagram b, A') :: rest) =
      .acked (sent ++ [SentPacket.data A b fb]) rest := by
  have htake : (ackDatagram b).take 516 = ackDatagram b := by
    apply List.take_of_length_le
    simp [ackDatagram]
  have hop : int_from_bytes ((ackDatagram b).take 2) = 4 := by
    simp [ackDatagram, int_from_bytes]
  have hbf : block_field (ackDatagram b) = b := block_field_quad 0 4 b
  simp only [putInner, data_message_some b fb hb, htake, hop, hbf, OPCODE]
  norm_num

/-- The first attempt to send a DATA packet for a block ≥ 32768 crashes the
process inside `pack`, whatever the script holds. -/
theorem putInner_crash (A : Addr) (b : Nat) (fb : List Nat)
    (sent : List SentPacket) (t : Nat) (script : Script) (hb : 32767 < b) :
    putInner A b fb (t + 1) sent script = .crashed sent script := by
  simp only [putInner, data_message_none b fb hb]

theorem dataTrace_succ (a : Addr) (f : List Nat) (pos b k : Nat) :
    dataTrace a f pos b (k + 1) =
      SentPacket.data a b ((f.drop pos).take BLOCK_SIZE) ::
        dataTrace a f (pos + BLOCK_SIZE) (b + 1) k := rfl

theorem dataTrace_snoc (a : Addr) (f : List Nat) :
    ∀ (k pos b : Nat),
      dataTrace a f pos b (k + 1) =
        dataTrace a f pos b k ++
          [SentPacket.data a (b + k)
            ((f.drop (pos + BLOCK_SIZE * k)).take BLOCK_SIZE)] := by
  intro k
  induction k with
  | zero => intro pos b; simp [dataTrace]
  | succ k ih =>
    intro pos b
    have h1 : b + 1 + k = b + (k + 1) := by omega
    have h2 : pos + BLOCK_SIZE + BLOCK_SIZE * k = pos + BLOCK_SIZE * (k + 1) := by
      ring
    rw [dataTrace_succ, ih (pos + BLOCK_SIZE) (b + 1), h1, h2,
      dataTrace_succ, List.cons_append]

theorem dataTrace_full (a : Addr) (f : List Nat) :
    ∀ (k pos b : Nat), pos + BLOCK_SIZE * k ≤ f.length →
      ∀ p ∈ dataTrace a f pos b k,
        ∃ blk payload,
          p = SentPacket.data a blk payload ∧ payload.length = BLOCK_SIZE := by
  intro k
  induction k with
  | zero =>
    intro pos b h p hp
    simp [dataTrace] at hp
  | succ k ih =>
    intro pos b h p hp
    rw [dataTrace_succ] at hp
    rcases List.mem_cons.mp hp with hp | hp
    · refine ⟨b, (f.drop pos).take BLOCK_SIZE, hp, ?_⟩
      simp only [List.length_take, List.length_drop]
      simp only [BLOCK_SIZE] at h ⊢
      omega
    · exact ih (pos + BLOCK_SIZE) (b + 1) (by simp only [BLOCK_SIZE] at h ⊢; omega) p hp

/-- With a cooperative server, uploading the `k+1` remaining blocks (the last
of which is the short one) succeeds and sends exactly the expected DATA
trace, provided every block number involved stays within the encodable range
`≤ 32767`. -/
theorem putLoop_coop (A : Addr) (fileBytes : List Nat) :
    ∀ (k pos b : Nat) (sent : List SentPacket),
      fileBytes.length - pos = BLOCK_SIZE * k → b + k ≤ 32767 →
      putLoop A fileBytes pos b sent (coopScript A b (k + 1)) =
        { outcome := .success,
          sent := sent ++ dataTrace A fileBytes pos b (k + 1),
          fileClosed := true, sockClosed := true, exitCode := 0 } := by
  intro k
  induction k with
  | zero =>
    intro pos b sent h hbk
    have hb : b ≤ 32767 := by omega
    have hdrop : fileBytes.drop pos = [] := by
      apply List.drop_eq_nil_of_le
      omega
    rw [putLoop.eq_def]
    rw [show coopScript A b 1 = [some (ackDatagram b, A)] from rfl]
    rw [show MAX_TRY = 2 + 1 from rfl]
    rw [hdrop, List.take_nil]
    rw [putInner_coop A A b [] sent 2 [] hb]
    simp [dataTrace, hdrop, BLOCK_SIZE]
  | succ k ih =>
    intro pos b sent h hbk
    have hb : b ≤ 32767 := by omega
    have hfull : ¬((fileBytes.drop pos).take BLOCK_SIZE).length < BLOCK_SIZE := by
      simp only [List.length_take, List.length_drop]
      simp only [BLOCK_SIZE] at h ⊢
      omega
    rw [putLoop.eq_def]
    rw [show coopScript A b (k + 1 + 1) =
      some (ackDatagram b, A) :: coopScript A (b + 1) (k + 1) from rfl]
    rw [show MAX_TRY = 2 + 1 from rfl]
    rw [putInner_coop A A b ((fileBytes.drop pos).take BLOCK_SIZE) sent 2
      (coopScript A (b + 1) (k + 1)) hb]
    dsimp only
    rw [if_neg hfull]
    rw [ih (pos + BLOCK_SIZE) (b + 1)
      (sent ++ [SentPacket.data A b ((fileBytes.drop pos).take BLOCK_SIZE)])
      (by simp only [BLOCK_SIZE] at h ⊢; omega) (by omega)]
    simp [dataTrace_succ, List.append_assoc]

/-- With the same cooperative server, an upload whose remaining length is an
exact multiple of `BLOCK_SIZE` with final (zero-length) block number exactly
32768 sends the `k` full blocks and then dies in `pack` inside `send_data`:
the zero-length final block is never sent and the run ends `crashed`. -/
theorem putLoop_coop_crash (A : Addr) (fileBytes : List Nat) :
    ∀ (k pos b : Nat) (sent : List SentPacket),
      fileBytes.length - pos = BLOCK_SIZE * k → b + k = 32768 →
      putLoop A fileBytes pos b sent (coopScript A b (k + 1)) =
        { outcome := .crashed, sent := sent ++ dataTrace A fileBytes pos b k,
          fileClosed := false, sockClosed := false, exitCode := 1 } := by
  intro k
  induction k with
  | zero =>
    intro pos b sent h hb32
    have hb : b = 32768 := by omega
    subst hb
    rw [putLoop.eq_def]
    rw [show MAX_TRY = 2 + 1 from rfl]
    rw [putInner_crash A 32768 ((fileBytes.drop pos).take BLOCK_SIZE) sent 2
      (coopScript A 32768 (0 + 1)) (by norm_num)]
    simp [dataTrace]
  | succ k ih =>
    intro pos b sent h hb32
    have hb : b ≤ 32767 := by omega
    have hfull : ¬((fileBytes.drop pos).take BLOCK_SIZE).length < BLOCK_SIZE := by
      simp only [List.length_take, List.length_drop]
      simp only [BLOCK_SIZE] at h ⊢
      omega
    rw [putLoop.eq_def]
    rw [show coopScript A b (k + 1 + 1) =
      some (ackDatagram b, A) :: coopScript A (b + 1) (k + 1) from rfl]
    rw [show MAX_TRY = 2 + 1 from rfl]
    rw [putInner_coop A A b ((fileBytes.drop pos).take BLOCK_SIZE) sent 2
      (coopScript A (b + 1) (k + 1)) hb]
    dsimp only
    rw [if_neg hfull]
    rw [ih (pos + BLOCK_SIZE) (b + 1)
      (sent ++ [SentPacket.data A b ((fileBytes.drop pos).take BLOCK_SIZE)])
      (by simp only [BLOCK_SIZE] at h ⊢; omega) (by omega)]
    simp [dataTrace_succ, List.append_assoc]

/-- The inner retry loop reports `acked` only right after having sent the
DATA packet for the current block: the send trace of an `acked` result ends
with that DATA packet. -/
theorem putInner_acked_shape (A : Addr) (blk : Nat) (fb : List Nat) :
    ∀ (t : Nat) (sent : List SentPacket) (script : Script)
      (s : List SentPacket) (rest : Script),
      putInner A blk fb t sent script = .acked s rest →
      ∃ pre, s = pre ++ [SentPacket.data A blk fb] := by
  intro t
  induction t with
  | zero =>
    intro sent script s rest h
    simp [putInner] at h
  | succ t ih =>
    intro sent script s rest h
    cases hdm : data_message blk fb with
    | none =>
      rw [putInner, hdm] at h
      simp at h
    | some w =>
      cases script with
      | nil =>
        rw [putInner, hdm] at h
        simp at h
      | cons head tail =>
        cases head with
        | none =>
          rw [putInner, hdm] at h
          exact ih _ _ _ _ h
        | some p =>
          obtain ⟨d0, a0⟩ := p
          rw [putInner, hdm] at h
          dsimp only at h
          by_cases h4 : int_from_bytes ((d0.take 516).take 2) = OPCODE "ACK"
          · rw [if_pos h4] at h
            by_cases hb : block_field (d0.take 516) = blk
            · rw [if_pos hb] at h
              injection h with hs hrest
              exact ⟨sent, hs.symm⟩
            · rw [if_neg hb] at h
              exact ih _ _ _ _ h
          · rw [if_neg h4] at h
            by_cases h5 : int_from_bytes ((d0.take 516).take 2) = OPCODE "ERROR"
            · rw [if_pos h5] at h
              simp at h
            · rw [if_neg h5] at h
              exact ih _ _ _ _ h

/-- A `put` data phase ends in `success` only with a send trace ending in a
DATA packet whose payload was read shorter than `BLOCK_SIZE`. -/
theorem putLoop_success_shape (A : Addr) (f : List Nat) :
    ∀ (pos b : Nat) (sent : List SentPacket) (script : Script),
      (putLoop A f pos b sent script).outcome = .success →
      ∃ pre blk payload,
        (putLoop A f pos b sent script).sent =
          pre ++ [SentPacket.data A blk payload] ∧
        payload.length < BLOCK_SIZE := by
  intro pos b sent script
  induction pos, b, sent, script using putLoop.induct A f with
  | case1 pos b sent script s rest hput =>
    intro h
    rw [putLoop.eq_def, hput] at h
    simp at h
  | case2 pos b sent script code s rest hput =>
    intro h
    rw [putLoop.eq_def, hput] at h
    simp at h
  | case3 pos b sent script s rest hput =>
    intro h
    rw [putLoop.eq_def, hput] at h
    simp at h
  | case4 pos b sent script s rest hput =>
    intro h
    rw [putLoop.eq_def, hput] at h
    simp at h
  | case5 pos b sent script s rest hput hshort =>
    intro h
    obtain ⟨pre, hpre⟩ := putInner_acked_shape A b _ _ _ _ _ _ hput
    refine ⟨pre, b, (f.drop pos).take BLOCK_SIZE, ?_, hshort⟩
    rw [putLoop.eq_def, hput]
    simp only [if_pos hshort]
    exact hpre
  | case6 pos b sent script s rest hput hfull ih =>
    intro h
    rw [putLoop.eq_def, hput] at h ⊢
    simp only [if_neg hfull] at h ⊢
    exact ih h

/-! ### C1 — a short DATA payload is the only end-of-file signal -/

/-- Counterexample to claim C1: a DATA datagram for block 40000 with a 512-byte
payload DOES by itself terminate the transfer — `send_ack(40000)` raises
`struct.error` inside `pack('>h', …)` and the process dies (nothing sent,
nothing written, no close); and a DATA datagram for the expected block 32768
with a short payload terminates by the same crash (after the write) instead
of succeeding.  Both universally-quantified conjuncts of the claim are false
of the program. -/
theorem claim_C1_counterexample :
    getStep (0, 0) 1 [] [] ([0, 3, 156, 64] ++ List.replicate 512 7) =
      .halt { outcome := .crashed, written := [], sent := [],
              fileClosed := false, fileRemoved := false, sockClosed := false,
              exitCode := 1 } ∧
    getStep (0, 0) 32768 [] [] [0, 3, 128, 0, 9] =
      .halt { outcome := .crashed, written := [9], sent := [],
              fileClosed := false, fileRemoved := false, sockClosed := false,
              exitCode := 1 } ∧
    GetOutcome.crashed ≠ GetOutcome.success := by
  refine ⟨rfl, rfl, by simp⟩

/-- Amended claim C1: for block numbers the signed encoder can represent
(`b ≤ 32767`), a DATA datagram whose payload is exactly 512 bytes never by
itself terminates the transfer (the loop body always continues to the next
receive, for a matching or a non-matching block number), while a DATA
datagram for the expected block whose payload is shorter than 512 bytes
halts the run with the `success` outcome; for `b ≥ 32768` the client instead
crashes in `send_ack` (claim C2's bug) before reaching either behaviour. -/
theorem claim_C1_short_payload_is_eof (A : Addr) (E : Nat) (W : List Nat)
    (S : List SentPacket) (b : Nat) (payload : List Nat) :
    (b ≤ 32767 → payload.length = 512 →
      ∃ e w s, getStep A E W S ([0, 3, b / 256, b % 256] ++ payload) =
        .cont e w s) ∧
    (b = E → b ≤ 32767 → payload.length < 512 →
      getStep A E W S ([0, 3, b / 256, b % 256] ++ payload) =
        .halt { outcome := .success, written := W ++ payload,
                sent := S ++ [SentPacket.ack A b], fileClosed := true,
                fileRemoved := false, sockClosed := true, exitCode := 0 }) := by
  constructor
  · intro hb hlen
    rw [getStep_data]
    by_cases hbE : b = E
    · subst hbE
      simp [hb, hlen, BLOCK_SIZE]
    · simp [hbE, hb]
  · intro hbE hb hlen
    subst hbE
    rw [getStep_data]
    simp [hb, hlen, BLOCK_SIZE]

theorem claim_C1_witness :
    (1 : Nat) ≤ 32767 ∧
    (List.replicate 512 (7 : Nat)).length = 512 ∧
    (∃ e w s, getStep (0, 0) 1 [] [] ([0, 3, 0, 1] ++ List.replicate 512 7) =
      .cont e w s) ∧
    ([7, 8, 9] : List Nat).length < 512 ∧
    getStep (0, 0) 1 [] [] [0, 3, 0, 1, 7, 8, 9] =
      .halt { outcome := .success, written := [7, 8, 9],
              sent := [SentPacket.ack (0, 0) 1], fileClosed := true,
              fileRemoved := false, sockClosed := true, exitCode := 0 } :=
  ⟨by norm_num,
   by rw [List.length_replicate],
   (claim_C1_short_payload_is_eof (0, 0) 1 [] [] 1 (List.replicate 512 7)).1
     (by norm_num) (by rw [List.length_replicate]),
   by norm_num,
   (claim_C1_short_payload_is_eof (0, 0) 1 [] [] 1 [7, 8, 9]).2 rfl
     (by norm_num) (by norm_num)⟩

/-! ### C2 — block numbers: `pack('>h', …)` is signed and crashes at 32768 -/

/-- Claim C2 is a code bug: ACK and DATA block-number encoding round-trips
through the decoder only for blocks 0–32767.  `send_ack`/`send_data` build
their packets with `struct.pack('>h', …)`, the SIGNED 16-bit format, so
encoding block 32768 raises `struct.error` (modelled as `none`) instead of
wrapping or encoding unsigned — the claim's "never crashes over 0–65535"
fails from 32768 on. -/
theorem claim_C2_signed_pack (b : Nat) :
    ack_message 32768 = none ∧
    data_message 32768 [] = none ∧
    (b ≤ 32767 →
      (∃ w, ack_message b = some w ∧ block_field w = b) ∧
      ∀ payload : List Nat,
        ∃ w, data_message b payload = some w ∧ block_field w = b) := by
  refine ⟨by decide, by decide, fun hb => ⟨⟨[0, 4, b / 256, b % 256], ?_, ?_⟩, ?_⟩⟩
  · simp [ack_message, pack_int16, OPCODE, hb]
  · exact block_field_header 0 4 b []
  · intro payload
    refine ⟨[0, 3, b / 256, b % 256] ++ payload, ?_, ?_⟩
    · simp [data_message, pack_int16, OPCODE, hb]
    · exact block_field_header 0 3 b payload

theorem claim_C2_witness :
    (40 : Nat) ≤ 32767 ∧
    (∃ w, ack_message 40 = some w ∧ block_field w = 40) ∧
    ∀ payload : List Nat,
      ∃ w, data_message 40 payload = some w ∧ block_field w = 40 :=
  ⟨by norm_num, (claim_C2_signed_pack 40).2.2 (by norm_num)⟩

/-! ### C3 — duplicate / out-of-order DATA -/

/-- Counterexample to claim C3: on a DATA datagram for block 40000 ≠ expected
block 1, the client does NOT re-send an ACK carrying the received block
number — `send_ack(40000)` raises `struct.error` inside `pack('>h', …)` and
the process dies with nothing sent (the trace stays empty) and the loop
halted rather than continuing. -/
theorem claim_C3_counterexample :
    getStep (0, 0) 1 [] [] [0, 3, 156, 64] =
      .halt { outcome := .crashed, written := [], sent := [],
              fileClosed := false, fileRemoved := false, sockClosed := false,
              exitCode := 1 } := rfl

/-- Amended claim C3: a DATA datagram whose block number `b` differs from the
expected block and is representable by the signed encoder (`b ≤ 32767`)
makes the download loop re-send an ACK carrying the received block number,
with the expected-block counter and the file contents unchanged; for
`b ≥ 32768` the client instead crashes in `send_ack` with nothing sent. -/
theorem claim_C3_duplicate_data (A : Addr) (E : Nat) (W : List Nat)
    (S : List SentPacket) (b : Nat) (payload : List Nat) (h : b ≠ E)
    (hb : b ≤ 32767) :
    getStep A E W S ([0, 3, b / 256, b % 256] ++ payload) =
      .cont E W (S ++ [SentPacket.ack A b]) := by
  rw [getStep_data]
  simp [h, hb]

theorem claim_C3_witness :
    (5 : Nat) ≠ 1 ∧ (5 : Nat) ≤ 32767 ∧
    getStep (0, 0) 1 [] [] [0, 3, 0, 5, 1, 2] =
      .cont 1 [] [SentPacket.ack (0, 0) 5] :=
  ⟨by norm_num, by norm_num,
   claim_C3_duplicate_data (0, 0) 1 [] [] 5 [1, 2] (by norm_num) (by norm_num)⟩

/-! ### C4 — upload termination and the zero-length final block -/

/-- Counterexample to claim C4: for the file of length 512·32767 (an exact
multiple of 512), a fully cooperative run sends the 32767 full DATA blocks
and then, reading the final zero-length block as number 32768, crashes in
`pack('>hh…s', …)` inside `send_data` before anything reaches `sendto`: the
run ends `crashed`, not `success`, and the zero-length final DATA packet is
never among the sent packets. -/
theorem claim_C4_counterexample :
    putLoop (0, 0) (List.replicate (512 * 32767) 0) 0 1 []
        (coopScript (0, 0) 1 32768) =
      { outcome := .crashed,
        sent := dataTrace (0, 0) (List.replicate (512 * 32767) 0) 0 1 32767,
        fileClosed := false, sockClosed := false, exitCode := 1 } ∧
    SentPacket.data (0, 0) 32768 [] ∉
      dataTrace (0, 0) (List.replicate (512 * 32767) 0) 0 1 32767 ∧
    PutOutcome.crashed ≠ PutOutcome.success := by
  refine ⟨?_, ?_, by simp⟩
  · have h := putLoop_coop_crash (0, 0) (List.replicate (512 * 32767) 0)
      32767 0 1 []
      (by rw [List.length_replicate]; norm_num [BLOCK_SIZE])
      (by norm_num)
    exact h
  · intro hmem
    obtain ⟨blk, payload, hp, hlen⟩ :=
      dataTrace_full (0, 0) (List.replicate (512 * 32767) 0) 32767 0 1
        (by rw [List.length_replicate]; norm_num [BLOCK_SIZE]) _ hmem
    injection hp with h1 h2 h3
    rw [← h3] at hlen
    simp [BLOCK_SIZE] at hlen

/-- Amended claim C4: (i) the upload data phase ends in `success` only when
the last DATA packet sent carried a payload read shorter than `BLOCK_SIZE`;
(ii) as soon as a block read shorter than `BLOCK_SIZE` is acknowledged the
transfer ends successfully; (iii) for a source file whose length is an exact
multiple of 512 (including the empty file) and small enough that every block
number stays within the signed encoder's range (length ≤ 512·32766, so the
final block number is ≤ 32767), a cooperative run sends one DATA packet per
full block followed by one additional final DATA packet with zero-length
payload, and succeeds; at length 512·32767 the final block would be number
32768 and `send_data` crashes instead (the counterexample). -/
theorem claim_C4_upload_termination (A : Addr) (fileBytes : List Nat)
    (pos b : Nat) (sent : List SentPacket) (script : Script) :
    ((putLoop A fileBytes pos b sent script).outcome = .success →
      ∃ pre blk payload,
        (putLoop A fileBytes pos b sent script).sent =
          pre ++ [SentPacket.data A blk payload] ∧
        payload.length < BLOCK_SIZE) ∧
    (∀ s rest,
      putInner A b ((fileBytes.drop pos).take BLOCK_SIZE) MAX_TRY sent script =
        .acked s rest →
      ((fileBytes.drop pos).take BLOCK_SIZE).length < BLOCK_SIZE →
      putLoop A fileBytes pos b sent script =
        { outcome := .success, sent := s, fileClosed := true,
          sockClosed := true, exitCode := 0 }) ∧
    (fileBytes.length % BLOCK_SIZE = 0 →
      fileBytes.length ≤ BLOCK_SIZE * 32766 →
      putLoop A fileBytes 0 1 []
          (coopScript A 1 (fileBytes.length / BLOCK_SIZE + 1)) =
        { outcome := .success,
          sent := dataTrace A fileBytes 0 1 (fileBytes.length / BLOCK_SIZE + 1),
          fileClosed := true, sockClosed := true, exitCode := 0 } ∧
      dataTrace A fileBytes 0 1 (fileBytes.length / BLOCK_SIZE + 1) =
        dataTrace A fileBytes 0 1 (fileBytes.length / BLOCK_SIZE) ++
          [SentPacket.data A (1 + fileBytes.length / BLOCK_SIZE) []] ∧
      ∀ p ∈ dataTrace A fileBytes 0 1 (fileBytes.length / BLOCK_SIZE),
        ∃ blk payload,
          p = SentPacket.data A blk payload ∧ payload.length = BLOCK_SIZE) ∧
    BLOCK_SIZE = 512 := by
  refine ⟨putLoop_success_shape A fileBytes pos b sent script,
    fun s rest hput hshort => ?_, fun hmod hsmall => ⟨?_, ?_, ?_⟩, rfl⟩
  · rw [putLoop.eq_def, hput]
    simp only [if_pos hshort]
  · have hk : fileBytes.length - 0 =
        BLOCK_SIZE * (fileBytes.length / BLOCK_SIZE) := by
      simp only [BLOCK_SIZE] at hmod ⊢
      omega
    have hrange : 1 + fileBytes.length / BLOCK_SIZE ≤ 32767 := by
      simp only [BLOCK_SIZE] at hsmall ⊢
      omega
    have h := putLoop_coop A fileBytes (fileBytes.length / BLOCK_SIZE) 0 1 []
      hk hrange
    simpa using h
  · have hnil :
        (fileBytes.drop (0 + BLOCK_SIZE * (fileBytes.length / BLOCK_SIZE))).take
          BLOCK_SIZE = [] := by
      rw [List.drop_eq_nil_of_le]
      · exact List.take_nil
      · simp only [BLOCK_SIZE] at hmod ⊢
        omega
    rw [dataTrace_snoc, hnil]
  · apply dataTrace_full
    simp only [BLOCK_SIZE] at hmod ⊢
    omega

theorem claim_C4_witness :
    ((putLoop (0, 0) [] 0 1 [] [some (ackDatagram 1, (9, 9))]).outcome =
        .success ∧
      ∃ pre blk payload,
        (putLoop (0, 0) [] 0 1 [] [some (ackDatagram 1, (9, 9))]).sent =
          pre ++ [SentPacket.data (0, 0) blk payload] ∧
        payload.length < BLOCK_SIZE) ∧
    (putLoop (0, 0) [] 0 1 [] [some (ackDatagram 1, (9, 9))] =
      { outcome := .success, sent := [SentPacket.data (0, 0) 1 []],
        fileClosed := true, sockClosed := true, exitCode := 0 }) ∧
    (([] : List Nat).length % BLOCK_SIZE = 0 ∧
      ([] : List Nat).length ≤ BLOCK_SIZE * 32766 ∧
      putLoop (0, 0) [] 0 1 [] (coopScript (0, 0) 1 1) =
        { outcome := .success, sent := dataTrace (0, 0) [] 0 1 1,
          fileClosed := true, sockClosed := true, exitCode := 0 }) :=
  ⟨⟨by rw [putLoop.eq_def]; decide,
    (claim_C4_upload_termination (0, 0) [] 0 1 []
      [some (ackDatagram 1, (9, 9))]).1 (by rw [putLoop.eq_def]; decide)⟩,
   (claim_C4_upload_termination (0, 0) [] 0 1 []
      [some (ackDatagram 1, (9, 9))]).2.1 [SentPacket.data (0, 0) 1 []] []
      (by decide) (by decide),
   ⟨by decide, by decide,
    ((claim_C4_upload_termination (0, 0) [] 0 1 [] []).2.2.1 (by decide)
      (by decide)).1⟩⟩

/-! ### C5 — WRQ handshake acceptance -/

/-- Claim C5: with attempts remaining, a WRQ handshake reply that is an ACK
with block field 0 is the only reply accepted as success (the data phase
starts, with the reply's source address captured as the new peer); an ERROR
reply ends the run immediately as failed (exit code 1) with no further
attempt; any other reply is a non-match — the attempt counter goes down by
one and the WRQ is re-sent. -/
theorem claim_C5_wrq_handshake (filename mode fileBytes : List Nat)
    (addr newAddr : Addr) (t : Nat) (sent : List SentPacket) (d : Datagram)
    (rest : Script) (hd : d.length ≤ 516) :
    (int_from_bytes (d.take 2) = OPCODE "ACK" → block_field d = 0 →
      putHsAux filename mode fileBytes addr (t + 1) sent
          (some (d, newAddr) :: rest) =
        putLoop newAddr fileBytes 0 1
          (sent ++ [SentPacket.wrq addr filename mode]) rest) ∧
    (int_from_bytes (d.take 2) = OPCODE "ERROR" →
      putHsAux filename mode fileBytes addr (t + 1) sent
          (some (d, newAddr) :: rest) =
        { outcome := .protocolError (block_field d),
          sent := sent ++ [SentPacket.wrq addr filename mode],
          fileClosed := false, sockClosed := false, exitCode := 1 }) ∧
    (¬(int_from_bytes (d.take 2) = OPCODE "ACK" ∧ block_field d = 0) →
      int_from_bytes (d.take 2) ≠ OPCODE "ERROR" →
      putHsAux filename mode fileBytes addr (t + 1) sent
          (some (d, newAddr) :: rest) =
        putHsAux filename mode fileBytes newAddr t
          (sent ++ [SentPacket.wrq addr filename mode]) rest) := by
  have htake : d.take 516 = d := List.take_of_length_le hd
  refine ⟨fun h1 h2 => ?_, fun h5 => ?_, fun hn h5 => ?_⟩
  · simp only [putHsAux, htake]
    rw [if_pos ⟨h1, h2⟩]
  · have hne : ¬(int_from_bytes (d.take 2) = OPCODE "ACK" ∧ block_field d = 0) := by
      rintro ⟨h4, -⟩
      rw [h5] at h4
      exact absurd h4 (by decide)
    simp only [putHsAux, htake]
    rw [if_neg hne, if_pos h5]
  · simp only [putHsAux, htake]
    rw [if_neg hn, if_neg h5]

theorem claim_C5_witness :
    (int_from_bytes (List.take 2 [0, 4, 0, 0]) = OPCODE "ACK" ∧
      block_field [0, 4, 0, 0] = 0 ∧
      putHsAux [102] [111] [] (0, 0) 1 [] [some ([0, 4, 0, 0], (9, 9))] =
        putLoop (9, 9) [] 0 1 [SentPacket.wrq (0, 0) [102] [111]] []) ∧
    (int_from_bytes (List.take 2 [0, 5, 0, 3, 0]) = OPCODE "ERROR" ∧
      putHsAux [102] [111] [] (0, 0) 1 [] [some ([0, 5, 0, 3, 0], (9, 9))] =
        { outcome := .protocolError 3,
          sent := [SentPacket.wrq (0, 0) [102] [111]],
          fileClosed := false, sockClosed := false, exitCode := 1 }) ∧
    (putHsAux [102] [111] [] (0, 0) 1 [] [some ([0, 3, 0, 0], (9, 9))] =
      putHsAux [102] [111] [] (9, 9) 0 [SentPacket.wrq (0, 0) [102] [111]] []) :=
  ⟨⟨by decide, by decide,
    (claim_C5_wrq_handshake [102] [111] [] (0, 0) (9, 9) 0 [] [0, 4, 0, 0] []
      (by norm_num)).1 (by decide) (by decide)⟩,
   ⟨by decide,
    (claim_C5_wrq_handshake [102] [111] [] (0, 0) (9, 9) 0 [] [0, 5, 0, 3, 0] []
      (by norm_num)).2.1 (by decide)⟩,
   (claim_C5_wrq_handshake [102] [111] [] (0, 0) (9, 9) 0 [] [0, 3, 0, 0] []
      (by norm_num)).2.2 (by decide) (by decide)⟩

/-! ### C6 — RRQ retry exhaustion -/

/-- Claim C6: when the server never replies (three consecutive timeouts), the
`get` run sends exactly `MAX_TRY = 3` RRQs, each awaited with the
`TIME_OUT = 5`-second per-receive timeout, then ends with
`serverUnresponsive`, exit code 1, having closed and removed the destination
file (so no destination file remains) — though the socket is not closed. -/
theorem claim_C6_rrq_exhaustion (A : Addr) (filename mode : List Nat) :
    getRun A filename mode [none, none, none] =
      { outcome := .serverUnresponsive, written := [],
        sent := [SentPacket.rrq A filename mode,
                 SentPacket.rrq A filename mode,
                 SentPacket.rrq A filename mode],
        fileClosed := true, fileRemoved := true, sockClosed := false,
        exitCode := 1 } ∧
    MAX_TRY = 3 ∧ TIME_OUT = 5 :=
  ⟨rfl, rfl, rfl⟩

/-! ### C7 — mid-transfer receive timeout is a degraded success -/

/-- Claim C7: once the loop is running, a timeout on the next receive ends
the run with the distinct `timedOutMidTransfer` outcome: the loop exits
without marking failure (exit code 0), the file is closed but NOT removed
(the partial download is kept), and the socket is closed. -/
theorem claim_C7_mid_transfer_timeout (A : Addr) (E : Nat) (W : List Nat)
    (S : List SentPacket) (data : Datagram) (rest : Script) (e : Nat)
    (w : List Nat) (s : List SentPacket)
    (h : getStep A E W S data = .cont e w s) :
    getLoop A E W S data (none :: rest) =
      { outcome := .timedOutMidTransfer, written := w, sent := s,
        fileClosed := true, fileRemoved := false, sockClosed := true,
        exitCode := 0 } ∧
    GetOutcome.timedOutMidTransfer ≠ GetOutcome.success := by
  constructor
  · rw [getLoop, h]
    rfl
  · simp

theorem claim_C7_witness :
    getStep (0, 0) 1 [] [] [0, 0] = .cont 1 [] [] ∧
    getLoop (0, 0) 1 [] [] [0, 0] [none] =
      { outcome := .timedOutMidTransfer, written := [], sent := [],
        fileClosed := true, fileRemoved := false, sockClosed := true,
        exitCode := 0 } ∧
    GetOutcome.timedOutMidTransfer ≠ GetOutcome.success :=
  ⟨rfl,
   (claim_C7_mid_transfer_timeout (0, 0) 1 [] [] [0, 0] [] 1 [] [] rfl).1,
   (claim_C7_mid_transfer_timeout (0, 0) 1 [] [] [0, 0] [] 1 [] [] rfl).2⟩

/-! ### C8 — resource release on exit paths -/

/-- Claim C8 is a code bug: resources are NOT released on every exit path.
When the WRQ handshake receives an ERROR reply, `put` calls `sys.exit(1)`
directly (lines 184–187) without `file.close()` or `sock.close()`; and on
every `sys.exit(1)` path of either operation the final `sock.close()`
(line 231) is never reached — here checked on the `get` ERROR path, which
closes the file but not the socket. -/
theorem claim_C8_release_bug :
    (putRun (0, 0) [102] [111] [] [some ([0, 5, 0, 1, 0], (9, 9))]).fileClosed
        = false ∧
    (putRun (0, 0) [102] [111] [] [some ([0, 5, 0, 1, 0], (9, 9))]).sockClosed
        = false ∧
    (putRun (0, 0) [102] [111] [] [some ([0, 5, 0, 1, 0], (9, 9))]).exitCode
        = 1 ∧
    (putRun (0, 0) [102] [111] [] [some ([0, 5, 0, 1, 0], (9, 9))]).outcome
        = .protocolError 1 ∧
    (getRun (0, 0) [102] [111] [some ([0, 5, 0, 1, 0], (9, 9))]).fileClosed
        = true ∧
    (getRun (0, 0) [102] [111] [some ([0, 5, 0, 1, 0], (9, 9))]).sockClosed
        = false ∧
    (getRun (0, 0) [102] [111] [some ([0, 5, 0, 1, 0], (9, 9))]).exitCode
        = 1 := by
  decide

/-! ### C9 — malformed packets are not surfaced distinctly -/

/-- Counterexample to claim C9: the 2-byte datagram `[0, 5]` is too short for
its declared opcode (ERROR needs at least code and terminator), yet the
download loop handles it EXACTLY like the well-formed ERROR packet
`[0, 5, 0, 0, 0]` (code 0, empty message): Python slicing silently turns the
missing fields into 0 / empty, so no distinct malformed-packet condition
exists. -/
theorem claim_C9_counterexample :
    getStep (0, 0) 1 [] [] [0, 5] = getStep (0, 0) 1 [] [] [0, 5, 0, 0, 0] ∧
    getStep (0, 0) 1 [] [] [0, 5] =
      .halt { outcome := .protocolError 0 [], written := [], sent := [],
              fileClosed := true, fileRemoved := true, sockClosed := false,
              exitCode := 1 } := by
  decide

/-- Amended claim C9: a received datagram that is too short for its declared
opcode is processed as if it were well formed, with the missing fields read
as 0 (block or error code) or empty (payload or message) by Python slice
semantics; in particular any truncated ERROR datagram `[0, 5]` is handled
identically to the well-formed ERROR packet with code 0 and empty message,
on every loop state. -/
theorem claim_C9_amended (A : Addr) (E : Nat) (W : List Nat)
    (S : List SentPacket) :
    getStep A E W S [0, 5] =
      .halt { outcome := .protocolError 0 [], written := W, sent := S,
              fileClosed := true, fileRemoved := true, sockClosed := false,
              exitCode := 1 } := rfl

/-! ### C10 — source addresses are ignored after the handshake -/

theorem getResume_bytes (A : Addr) :
    ∀ (s1 s2 : Script), bytesOf s1 = bytesOf s2 →
      ∀ o : GetStepOut, getResume A o s1 = getResume A o s2 := by
  intro s1
  induction s1 with
  | nil =>
    intro s2 h o
    have h2 : s2 = [] := by simpa [bytesOf] using h.symm
    subst h2
    rfl
  | cons e1 t1 ih =>
    intro s2 h o
    cases s2 with
    | nil => simp [bytesOf] at h
    | cons e2 t2 =>
      simp only [bytesOf, List.map_cons, List.cons.injEq] at h
      obtain ⟨he, ht⟩ := h
      have ht' : bytesOf t1 = bytesOf t2 := ht
      cases o with
      | halt r => rfl
      | cont e w s =>
        cases e1 with
        | none =>
          cases e2 with
          | none => rfl
          | some p => simp at he
        | some p1 =>
          cases e2 with
          | none => simp at he
          | some p2 =>
            obtain ⟨d1, a1⟩ := p1
            obtain ⟨d2, a2⟩ := p2
            simp at he
            subst he
            simp only [getResume]
            exact ih t2 ht' _

theorem putInner_bytes (A : Addr) (b : Nat) (fb : List Nat) :
    ∀ (t : Nat) (sent : List SentPacket) (s1 s2 : Script),
      bytesOf s1 = bytesOf s2 →
      innerSim (putInner A b fb t sent s1) (putInner A b fb t sent s2) := by
  intro t
  induction t with
  | zero =>
    intro sent s1 s2 h
    exact ⟨rfl, h⟩
  | succ t ih =>
    intro sent s1 s2 h
    cases hdm : data_message b fb with
    | none =>
      simp only [putInner, hdm]
      exact ⟨rfl, h⟩
    | some w =>
      cases s1 with
      | nil =>
        have h2 : s2 = [] := by simpa [bytesOf] using h.symm
        subst h2
        simp only [putInner, hdm]
        exact ⟨rfl, rfl⟩
      | cons e1 t1 =>
        cases s2 with
        | nil => simp [bytesOf] at h
        | cons e2 t2 =>
          simp only [bytesOf, List.map_cons, List.cons.injEq] at h
          obtain ⟨he, ht⟩ := h
          have ht' : bytesOf t1 = bytesOf t2 := ht
          cases e1 with
          | none =>
            cases e2 with
            | some p => simp at he
            | none =>
              simp only [putInner, hdm]
              exact ih _ _ _ ht'
          | some p1 =>
            cases e2 with
            | none => simp at he
            | some p2 =>
              obtain ⟨d1, a1⟩ := p1
              obtain ⟨d2, a2⟩ := p2
              simp at he
              subst he
              simp only [putInner, hdm]
              by_cases h4 : int_from_bytes ((d1.take 516).take 2) = OPCODE "ACK"
              · rw [if_pos h4, if_pos h4]
                by_cases hb : block_field (d1.take 516) = b
                · rw [if_pos hb, if_pos hb]
                  exact ⟨rfl, ht'⟩
                · rw [if_neg hb, if_neg hb]
                  exact ih _ _ _ ht'
              · rw [if_neg h4, if_neg h4]
                by_cases h5 : int_from_bytes ((d1.take 516).take 2) = OPCODE "ERROR"
                · rw [if_pos h5, if_pos h5]
                  exact ⟨rfl, rfl, ht'⟩
                · rw [if_neg h5, if_neg h5]
                  exact ih _ _ _ ht'

theorem putLoop_bytes (A : Addr) (f : List Nat) :
    ∀ (pos b : Nat) (sent : List SentPacket) (s1 : Script), ∀ s2 : Script,
      bytesOf s1 = bytesOf s2 →
      putLoop A f pos b sent s1 = putLoop A f pos b sent s2 := by
  intro pos b sent s1
  induction pos, b, sent, s1 using putLoop.induct A f with
  | case1 pos b sent s1 s rest hput =>
    intro s2 h
    have hsim := putInner_bytes A b ((f.drop pos).take BLOCK_SIZE) MAX_TRY sent s1 s2 h
    rw [hput] at hsim
    rw [putLoop.eq_def, putLoop.eq_def, hput]
    cases hx : putInner A b ((f.drop pos).take BLOCK_SIZE) MAX_TRY sent s2 with
    | acked s' rest' => rw [hx] at hsim; exact hsim.elim
    | noAck s' rest' => rw [hx] at hsim; exact hsim.elim
    | errExit c' s' rest' => rw [hx] at hsim; exact hsim.elim
    | crashed s' rest' => rw [hx] at hsim; exact hsim.elim
    | stuck s' rest' =>
      rw [hx] at hsim
      obtain ⟨h1, -⟩ := hsim
      subst h1
      rfl
  | case2 pos b sent s1 code s rest hput =>
    intro s2 h
    have hsim := putInner_bytes A b ((f.drop pos).take BLOCK_SIZE) MAX_TRY sent s1 s2 h
    rw [hput] at hsim
    rw [putLoop.eq_def, putLoop.eq_def, hput]
    cases hx : putInner A b ((f.drop pos).take BLOCK_SIZE) MAX_TRY sent s2 with
    | acked s' rest' => rw [hx] at hsim; exact hsim.elim
    | noAck s' rest' => rw [hx] at hsim; exact hsim.elim
    | crashed s' rest' => rw [hx] at hsim; exact hsim.elim
    | stuck s' rest' => rw [hx] at hsim; exact hsim.elim
    | errExit c' s' rest' =>
      rw [hx] at hsim
      obtain ⟨h1, h2, -⟩ := hsim
      subst h1
      subst h2
      rfl
  | case3 pos b sent s1 s rest hput =>
    intro s2 h
    have hsim := putInner_bytes A b ((f.drop pos).take BLOCK_SIZE) MAX_TRY sent s1 s2 h
    rw [hput] at hsim
    rw [putLoop.eq_def, putLoop.eq_def, hput]
    cases hx : putInner A b ((f.drop pos).take BLOCK_SIZE) MAX_TRY sent s2 with
    | acked s' rest' => rw [hx] at hsim; exact hsim.elim
    | errExit c' s' rest' => rw [hx] at hsim; exact hsim.elim
    | crashed s' rest' => rw [hx] at hsim; exact hsim.elim
    | stuck s' rest' => rw [hx] at hsim; exact hsim.elim
    | noAck s' rest' =>
      rw [hx] at hsim
      obtain ⟨h1, -⟩ := hsim
      subst h1
      rfl
  | case4 pos b sent s1 s rest hput =>
    intro s2 h
    have hsim := putInner_bytes A b ((f.drop pos).take BLOCK_SIZE) MAX_TRY sent s1 s2 h
    rw [hput] at hsim
    rw [putLoop.eq_def, putLoop.eq_def, hput]
    cases hx : putInner A b ((f.drop pos).take BLOCK_SIZE) MAX_TRY sent s2 with
    | acked s' rest' => rw [hx] at hsim; exact hsim.elim
    | errExit c' s' rest' => rw [hx] at hsim; exact hsim.elim
    | noAck s' rest' => rw [hx] at hsim; exact hsim.elim
    | stuck s' rest' => rw [hx] at hsim; exact hsim.elim
    | crashed s' rest' =>
      rw [hx] at hsim
      obtain ⟨h1, -⟩ := hsim
      subst h1
      rfl
  | case5 pos b sent s1 s rest hput hshort =>
    intro s2 h
    have hsim := putInner_bytes A b ((f.drop pos).take BLOCK_SIZE) MAX_TRY sent s1 s2 h
    rw [hput] at hsim
    rw [putLoop.eq_def, putLoop.eq_def, hput]
    cases hx : putInner A b ((f.drop pos).take BLOCK_SIZE) MAX_TRY sent s2 with
    | noAck s' rest' => rw [hx] at hsim; exact hsim.elim
    | errExit c' s' rest' => rw [hx] at hsim; exact hsim.elim
    | crashed s' rest' => rw [hx] at hsim; exact hsim.elim
    | stuck s' rest' => rw [hx] at hsim; exact hsim.elim
    | acked s' rest' =>
      rw [hx] at hsim
      obtain ⟨h1, -⟩ := hsim
      subst h1
      dsimp only
      rw [if_pos hshort, if_pos hshort]
  | case6 pos b sent s1 s rest hput hfull ih =>
    intro s2 h
    have hsim := putInner_bytes A b ((f.drop pos).take BLOCK_SIZE) MAX_TRY sent s1 s2 h
    rw [hput] at hsim
    rw [putLoop.eq_def, putLoop.eq_def, hput]
    cases hx : putInner A b ((f.drop pos).take BLOCK_SIZE) MAX_TRY sent s2 with
    | noAck s' rest' => rw [hx] at hsim; exact hsim.elim
    | errExit c' s' rest' => rw [hx] at hsim; exact hsim.elim
    | crashed s' rest' => rw [hx] at hsim; exact hsim.elim
    | stuck s' rest' => rw [hx] at hsim; exact hsim.elim
    | acked s' rest' =>
      rw [hx] at hsim
      obtain ⟨h1, h2⟩ := hsim
      subst h1
      dsimp only
      rw [if_neg hfull, if_neg hfull]
      exact ih rest' h2

/-- Claim C10: both data-phase loops are blind to the source addresses of the
datagrams they receive — two scripts that deliver the same datagram bytes
(and timeouts) in the same order, from arbitrary and possibly different
sender addresses, produce identical results: same outcome, same file
contents, same sent packets with the same destinations.  No transfer-ID
check is applied after the handshake. -/
theorem claim_C10_ignores_addresses (A : Addr) (E : Nat) (W : List Nat)
    (S : List SentPacket) (data : Datagram) (fileBytes : List Nat)
    (pos b : Nat) (s1 s2 : Script) (h : bytesOf s1 = bytesOf s2) :
    getLoop A E W S data s1 = getLoop A E W S data s2 ∧
    putLoop A fileBytes pos b S s1 = putLoop A fileBytes pos b S s2 :=
  ⟨getResume_bytes A s1 s2 h (getStep A E W S data),
   putLoop_bytes A fileBytes pos b S s1 s2 h⟩

theorem claim_C10_witness :
    bytesOf [some ([0, 5, 0, 0, 0], (1, 1))] =
      bytesOf [some ([0, 5, 0, 0, 0], (2, 2))] ∧
    (getLoop (0, 0) 1 [] [] [0, 3, 0, 1, 9] [some ([0, 5, 0, 0, 0], (1, 1))] =
       getLoop (0, 0) 1 [] [] [0, 3, 0, 1, 9] [some ([0, 5, 0, 0, 0], (2, 2))] ∧
     putLoop (0, 0) [] 0 1 [] [some ([0, 5, 0, 0, 0], (1, 1))] =
       putLoop (0, 0) [] 0 1 [] [some ([0, 5, 0, 0, 0], (2, 2))]) :=
  ⟨by decide,
   claim_C10_ignores_addresses (0, 0) 1 [] [] [0, 3, 0, 1, 9] [] 0 1
     [some ([0, 5, 0, 0, 0], (1, 1))] [some ([0, 5, 0, 0, 0], (2, 2))]
     (by decide)⟩

end Mytftp
